import Mathlib

/-!
Shallow embedding of the derived-metrics and aggregation pipeline of the
Supply_Chain_Analysis_Python repository (files
`enhanced_supply_chain_dashboard.py` and `interactive_dashboard_enhanced.py`),
together with proofs settling the specification claims about it.

Numeric columns are modelled as exact rationals; the IEEE-754 non-finite
values that pandas/numpy arithmetic can produce (infinities from x/0 with
x ≠ 0, NaN from 0/0 and from NaN propagation) are modelled explicitly by
the type `PFloat`, so that guarded and unguarded divisions are
distinguishable. Rounding is not modelled: all finite arithmetic is exact.

The random draws of `np.random.choice` / `np.random.uniform` (the
`Trend_Direction` / `Trend_Strength` columns and the `*_trend` metric
entries) are modelled by explicit oracle parameters threaded into the
functions that consume them.
-/

/-- A pandas/numpy scalar: a finite rational, `+inf`, `-inf`, or `NaN`. -/
inductive PFloat where
  | fin : ℚ → PFloat
  | posInf : PFloat
  | negInf : PFloat
  | nan : PFloat
deriving DecidableEq, Repr

namespace PFloat

/-- IEEE-style addition (exact on finite values). -/
def fadd : PFloat → PFloat → PFloat
  | nan, _ => nan
  | _, nan => nan
  | posInf, negInf => nan
  | negInf, posInf => nan
  | posInf, _ => posInf
  | _, posInf => posInf
  | negInf, _ => negInf
  | _, negInf => negInf
  | fin a, fin b => fin (a + b)

/-- IEEE-style negation. -/
def fneg : PFloat → PFloat
  | nan => nan
  | posInf => negInf
  | negInf => posInf
  | fin a => fin (-a)

/-- IEEE-style subtraction. -/
def fsub (x y : PFloat) : PFloat := fadd x (fneg y)

/-- IEEE-style multiplication (exact on finite values). -/
def fmul : PFloat → PFloat → PFloat
  | nan, _ => nan
  | _, nan => nan
  | fin a, fin b => fin (a * b)
  | posInf, posInf => posInf
  | posInf, negInf => negInf
  | negInf, posInf => negInf
  | negInf, negInf => posInf
  | posInf, fin b => if 0 < b then posInf else if b < 0 then negInf else nan
  | fin a, posInf => if 0 < a then posInf else if a < 0 then negInf else nan
  | negInf, fin b => if 0 < b then negInf else if b < 0 then posInf else nan
  | fin a, negInf => if 0 < a then negInf else if a < 0 then posInf else nan

/-- IEEE-style division: `x / 0` is `±inf` for finite `x ≠ 0` and `NaN`
for `x = 0`, exactly as numpy float division behaves. -/
def fdiv : PFloat → PFloat → PFloat
  | nan, _ => nan
  | _, nan => nan
  | fin a, fin b =>
      if b ≠ 0 then fin (a / b)
      else if 0 < a then posInf
      else if a < 0 then negInf
      else nan
  | fin _, posInf => fin 0
  | fin _, negInf => fin 0
  | posInf, fin b => if 0 ≤ b then posInf else negInf
  | negInf, fin b => if 0 ≤ b then negInf else posInf
  | posInf, posInf => nan
  | posInf, negInf => nan
  | negInf, posInf => nan
  | negInf, negInf => nan

end PFloat

/-- One raw record of the supply-chain CSV, restricted to the columns the
enrichment and aggregation code reads. Numeric CSV columns are finite
(rationals); categorical columns are strings. Field names transliterate the
CSV column headers used by the source. -/
structure Row where
  productType : String
  location : String
  supplierName : String
  transportationModes : String
  revenue : ℚ          -- column "Revenue generated"
  manufacturingCosts : ℚ
  numberSold : ℚ       -- column "Number of products sold"
  stockLevels : ℚ
  leadTimes : ℚ
  defectRates : ℚ
  shippingCosts : ℚ
  orderQuantities : ℚ
  availability : ℚ
deriving DecidableEq, Repr

/-- Output row of `calculate_advanced_metrics`
(`interactive_dashboard_enhanced.py`, lines 364-410): the original row
(`df.copy()` keeps every original column unchanged) plus the derived
columns, in the order the source adds them. -/
structure AdvRow where
  orig : Row
  profitMargin : ℚ
  totalShippingCost : ℚ
  efficiencyRatio : PFloat
  inventoryTurnover : PFloat
  performanceScore : PFloat
  riskLevel : Option String
  trendDirection : String
  trendStrength : ℚ
deriving DecidableEq, Repr

/-- Output row of `calculate_derived_metrics`
(`enhanced_supply_chain_dashboard.py`, lines 100-124): the original row plus
the four derived columns of that (unguarded) variant. -/
structure DerivedRow where
  orig : Row
  profitMargin : ℚ
  totalShippingCost : ℚ
  efficiencyRatio : PFloat
  inventoryTurnover : PFloat
deriving DecidableEq, Repr

/-- Maximum of a numeric column, as pandas `Series.max()` computes it on a
non-empty column. On an empty batch no row is ever produced, so the default
value for `[]` is never observable. -/
def colMax : List ℚ → ℚ
  | [] => 0
  | x :: xs => xs.foldl max x

/-- The term `(df['Revenue generated'] / df['Revenue generated'].max()) * 0.4`
of the performance score (line 394 of `interactive_dashboard_enhanced.py`).
`0.4` is taken exactly. -/
def revTerm (maxRev rev : ℚ) : PFloat :=
  PFloat.fmul (PFloat.fdiv (PFloat.fin rev) (PFloat.fin maxRev)) (PFloat.fin (2/5))

/-- The term `(1 - df['Lead times'] / df['Lead times'].max()) * 0.3`
(line 395). -/
def ltTerm (maxLt lt : ℚ) : PFloat :=
  PFloat.fmul (PFloat.fsub (PFloat.fin 1) (PFloat.fdiv (PFloat.fin lt) (PFloat.fin maxLt)))
    (PFloat.fin (3/10))

/-- The term `(1 - df['Defect rates'] / df['Defect rates'].max()) * 0.3`
(line 396). -/
def drTerm (maxDr dr : ℚ) : PFloat :=
  PFloat.fmul (PFloat.fsub (PFloat.fin 1) (PFloat.fdiv (PFloat.fin dr) (PFloat.fin maxDr)))
    (PFloat.fin (3/10))

/-- `Performance_Score` of one row (lines 393-397): the three weighted terms
summed left to right, then multiplied by 100. The three maxima are
batch-level statistics passed in. -/
def perfScore (maxRev maxLt maxDr : ℚ) (r : Row) : PFloat :=
  PFloat.fmul
    (PFloat.fadd (PFloat.fadd (revTerm maxRev r.revenue) (ltTerm maxLt r.leadTimes))
      (drTerm maxDr r.defectRates))
    (PFloat.fin 100)

/-- `pd.cut(defect_rates, bins=[0, 1, 3, 5, inf], labels=[Low, Medium, High,
Critical])` (lines 400-404). `pd.cut` defaults to `right=True` without
`include_lowest`, so the bins are the left-open right-closed intervals
`(0,1], (1,3], (3,5], (5,inf]`; a value outside every bin (in particular any
value `≤ 0`) gets no label (NaN). -/
def pdCutRisk (d : ℚ) : Option String :=
  if 0 < d ∧ d ≤ 1 then some "Low"
  else if 1 < d ∧ d ≤ 3 then some "Medium"
  else if 3 < d ∧ d ≤ 5 then some "High"
  else if 5 < d then some "Critical"
  else none

/-- One output row of `calculate_advanced_metrics`: the original row kept by
`df.copy()`, the guarded ratios (`np.where(denominator > 0, quotient, 0)`),
the performance score against the three batch maxima, the `pd.cut` risk
bucket, and the two randomly drawn trend fields (one draw `t` per row). -/
def mkAdvRow (maxRev maxLt maxDr : ℚ) (t : String × ℚ) (r : Row) : AdvRow where
  orig := r
  profitMargin := r.revenue - r.manufacturingCosts
  totalShippingCost := r.numberSold * r.shippingCosts
  efficiencyRatio :=
    if 0 < r.manufacturingCosts then PFloat.fin (r.revenue / r.manufacturingCosts)
    else PFloat.fin 0
  inventoryTurnover :=
    if 0 < r.stockLevels then PFloat.fin (r.numberSold / r.stockLevels)
    else PFloat.fin 0
  performanceScore := perfScore maxRev maxLt maxDr r
  riskLevel := pdCutRisk r.defectRates
  trendDirection := t.1
  trendStrength := t.2

/-- Row-by-row construction of the enriched frame; `i` is the absolute row
index, used to address the per-row random draw (`np.random.choice(...,
size=len(df))` and `np.random.uniform(..., size=len(df))` draw one value per
row, index-aligned). -/
def advRows (maxRev maxLt maxDr : ℚ) (rand : ℕ → String × ℚ) : ℕ → List Row → List AdvRow
  | _, [] => []
  | i, r :: rs => mkAdvRow maxRev maxLt maxDr (rand i) r :: advRows maxRev maxLt maxDr rand (i + 1) rs

/-- `calculate_advanced_metrics` (`interactive_dashboard_enhanced.py`,
lines 364-410). The column-wise pandas assignments are equivalent to one
pass per row because every derived column depends only on that row's
original fields and on the three column maxima of the original frame. The
oracle `rand` supplies the `(Trend_Direction, Trend_Strength)` draw of each
row. -/
def calculate_advanced_metrics (df : List Row) (rand : ℕ → String × ℚ) : List AdvRow :=
  advRows (colMax (df.map (·.revenue))) (colMax (df.map (·.leadTimes)))
    (colMax (df.map (·.defectRates))) rand 0 df

/-- One output row of `calculate_derived_metrics`
(`enhanced_supply_chain_dashboard.py`, lines 100-124): this variant divides
WITHOUT any zero guard, so a zero denominator produces `±inf` or `NaN`
exactly as pandas division does. -/
def mkDerivedRow (r : Row) : DerivedRow where
  orig := r
  profitMargin := r.revenue - r.manufacturingCosts
  totalShippingCost := r.numberSold * r.shippingCosts
  efficiencyRatio := PFloat.fdiv (PFloat.fin r.revenue) (PFloat.fin r.manufacturingCosts)
  inventoryTurnover := PFloat.fdiv (PFloat.fin r.numberSold) (PFloat.fin r.stockLevels)

/-- `calculate_derived_metrics` (`enhanced_supply_chain_dashboard.py`,
lines 100-124). -/
def calculate_derived_metrics (df : List Row) : List DerivedRow :=
  df.map mkDerivedRow

/-!
## Aggregation queries

The aggregation layer of both dashboards is a set of fixed SQL `GROUP BY`
queries handed to an embedded analytical engine (duckdb). The repository's
own content is the declarative query text; the engine itself is an external
black box. Each query is embedded as a record of its grouping key, its
declared reductions (source field, operator, output alias, in declaration
order), and its `ORDER BY` clause (output alias and direction).
-/

/-- A SQL reduction operator appearing in the source queries. -/
inductive ReduceOp where
  | rsum : ReduceOp
  | ravg : ReduceOp
  | rcount : ReduceOp
deriving DecidableEq, Repr

/-- One declared reduction of a `GROUP BY` query: source column (`"*"` for
`COUNT(*)`), operator, and output alias. -/
structure Reduction where
  column : String
  op : ReduceOp
  outName : String
deriving DecidableEq, Repr

/-- A `GROUP BY` query of the source: grouping column, reductions in
declaration order, and the `ORDER BY` clause (alias, `true` = `DESC`). -/
structure AggQuery where
  groupBy : String
  reductions : List Reduction
  orderBy : String
  descending : Bool
deriving DecidableEq, Repr

/-- Alias of the first declared reduction of a query (if any). -/
def firstReductionAlias (q : AggQuery) : Option String :=
  q.reductions.head?.map (·.outName)

/-- `DataAnalyzer.get_revenue_by_product_type`
(`enhanced_supply_chain_dashboard.py`, lines 383-393). -/
def revenueByProductTypeQuery : AggQuery where
  groupBy := "Product type"
  reductions :=
    [⟨"Revenue generated", .rsum, "total_revenue"⟩,
     ⟨"*", .rcount, "product_count"⟩]
  orderBy := "total_revenue"
  descending := true

/-- `DataAnalyzer.get_location_performance`
(`enhanced_supply_chain_dashboard.py`, lines 395-407). -/
def locationPerformanceQuery : AggQuery where
  groupBy := "Location"
  reductions :=
    [⟨"Revenue generated", .rsum, "total_revenue"⟩,
     ⟨"Manufacturing costs", .rsum, "total_costs"⟩,
     ⟨"Lead times", .ravg, "avg_lead_time"⟩,
     ⟨"Order quantities", .rsum, "total_orders"⟩]
  orderBy := "total_revenue"
  descending := true

/-- `DataAnalyzer.get_supplier_analysis`
(`enhanced_supply_chain_dashboard.py`, lines 409-420). -/
def supplierAnalysisQuery : AggQuery where
  groupBy := "Supplier name"
  reductions :=
    [⟨"Manufacturing costs", .rsum, "total_costs"⟩,
     ⟨"Defect rates", .ravg, "avg_defect_rate"⟩,
     ⟨"*", .rcount, "product_count"⟩]
  orderBy := "total_costs"
  descending := true

/-- `EnhancedDataAnalyzer.get_advanced_analytics`, `product_performance`
query (`interactive_dashboard_enhanced.py`, lines 728-737). -/
def productPerformanceQuery : AggQuery where
  groupBy := "Product type"
  reductions :=
    [⟨"Revenue generated", .rsum, "total_revenue"⟩,
     ⟨"Performance_Score", .ravg, "avg_performance"⟩,
     ⟨"*", .rcount, "product_count"⟩,
     ⟨"Defect rates", .ravg, "avg_defect_rate"⟩]
  orderBy := "total_revenue"
  descending := true

/-- `EnhancedDataAnalyzer.get_advanced_analytics`, `location_efficiency`
query (`interactive_dashboard_enhanced.py`, lines 740-749): it orders by
`avg_efficiency`, the THIRD declared reduction, not the first. -/
def locationEfficiencyQuery : AggQuery where
  groupBy := "Location"
  reductions :=
    [⟨"Revenue generated", .rsum, "total_revenue"⟩,
     ⟨"Lead times", .ravg, "avg_lead_time"⟩,
     ⟨"Efficiency_Ratio", .ravg, "avg_efficiency"⟩,
     ⟨"Manufacturing costs", .rsum, "total_costs"⟩]
  orderBy := "avg_efficiency"
  descending := true

/-- `EnhancedDataAnalyzer.get_advanced_analytics`, `supplier_risk` query
(`interactive_dashboard_enhanced.py`, lines 752-761). -/
def supplierRiskQuery : AggQuery where
  groupBy := "Supplier name"
  reductions :=
    [⟨"Defect rates", .ravg, "avg_defect_rate"⟩,
     ⟨"Manufacturing costs", .rsum, "total_costs"⟩,
     ⟨"*", .rcount, "product_count"⟩,
     ⟨"Lead times", .ravg, "avg_lead_time"⟩]
  orderBy := "avg_defect_rate"
  descending := true

/-- `EnhancedDataAnalyzer.get_advanced_analytics`, `transportation_analysis`
query (`interactive_dashboard_enhanced.py`, lines 764-773): it orders
ASCENDING (`ORDER BY avg_shipping_cost ASC`). -/
def transportationAnalysisQuery : AggQuery where
  groupBy := "Transportation modes"
  reductions :=
    [⟨"Shipping costs", .ravg, "avg_shipping_cost"⟩,
     ⟨"Lead times", .ravg, "avg_lead_time"⟩,
     ⟨"Order quantities", .rsum, "total_orders"⟩,
     ⟨"*", .rcount, "usage_count"⟩]
  orderBy := "avg_shipping_cost"
  descending := false

/-- All `GROUP BY` queries declared in the two source files, in source
order. -/
def sourceQueries : List AggQuery :=
  [revenueByProductTypeQuery, locationPerformanceQuery, supplierAnalysisQuery,
   productPerformanceQuery, locationEfficiencyQuery, supplierRiskQuery,
   transportationAnalysisQuery]

/-!
## Column-level frame view and missing-column behaviour

`calculate_advanced_metrics` / `calculate_derived_metrics` receive a pandas
`DataFrame`; a column subscript on a frame that lacks that column raises
`KeyError(column_name)`. The numeric columns the enrichment reads are
modelled as a name-indexed list of rational columns; the functions below
perform the same column accesses in the source's textual order and fail with
the first missing column's `KeyError`, as the pandas expression evaluation
does. Values of categorical columns are irrelevant to enrichment and are
left blank when rebuilding rows from columns.
-/

/-- The error actually raised on a malformed frame: Python's built-in
`KeyError` carrying the missing column name. The repository defines no
error type of its own. -/
inductive PyErr where
  | keyError : String → PyErr
deriving DecidableEq, Repr

/-- A frame as the enrichment code sees it: named numeric columns. -/
def RawFrame : Type := List (String × List ℚ)

/-- Column lookup, `df[name]`. -/
def findCol (f : RawFrame) (name : String) : Option (List ℚ) :=
  (f.find? (fun c => c.1 == name)).map (·.2)

/-- The numeric columns `calculate_advanced_metrics` subscripts, in first
textual access order (lines 377-401 of
`interactive_dashboard_enhanced.py`). -/
def advAccessOrder : List String :=
  ["Revenue generated", "Manufacturing costs", "Number of products sold",
   "Shipping costs", "Stock levels", "Lead times", "Defect rates"]

/-- The numeric columns `calculate_derived_metrics` subscripts, in first
textual access order (lines 113-122 of
`enhanced_supply_chain_dashboard.py`). -/
def derivedAccessOrder : List String :=
  ["Revenue generated", "Manufacturing costs", "Number of products sold",
   "Shipping costs", "Stock levels"]

/-- Value of column `name` at row `i` of frame `f` (0 when absent; only used
after all required columns were found to be present). -/
def colAt (f : RawFrame) (name : String) (i : ℕ) : ℚ :=
  ((findCol f name).getD []).getD i 0

/-- Rebuild the row view of a frame whose required numeric columns are all
present; the row count is the length of the first accessed column, and
categorical fields are not read by enrichment. -/
def frameRows (f : RawFrame) : List Row :=
  (List.range ((findCol f "Revenue generated").getD []).length).map (fun i =>
    { productType := "", location := "", supplierName := "",
      transportationModes := "",
      revenue := colAt f "Revenue generated" i,
      manufacturingCosts := colAt f "Manufacturing costs" i,
      numberSold := colAt f "Number of products sold" i,
      stockLevels := colAt f "Stock levels" i,
      leadTimes := colAt f "Lead times" i,
      defectRates := colAt f "Defect rates" i,
      shippingCosts := colAt f "Shipping costs" i,
      orderQuantities := 0, availability := 0 })

/-- `calculate_advanced_metrics` at frame level: the first missing required
column aborts the computation with its `KeyError` (pandas subscript
semantics); otherwise the whole frame is enriched. -/
def calculate_advanced_metrics_df (f : RawFrame) (rand : ℕ → String × ℚ) :
    Except PyErr (List AdvRow) :=
  match advAccessOrder.find? (fun n => (findCol f n).isNone) with
  | some n => .error (.keyError n)
  | none => .ok (calculate_advanced_metrics (frameRows f) rand)

/-- `calculate_derived_metrics` at frame level, with the same pandas
missing-column behaviour. -/
def calculate_derived_metrics_df (f : RawFrame) : Except PyErr (List DerivedRow) :=
  match derivedAccessOrder.find? (fun n => (findCol f n).isNone) with
  | some n => .error (.keyError n)
  | none => .ok (calculate_derived_metrics (frameRows f))

/-!
## Performance metrics and the risk-level filter
-/

/-- Skip-NaN column sum as `pandas.Series.sum` over a `PFloat` column
(`skipna=True` by default; an all-skipped column sums to 0). -/
def pfColSum (l : List PFloat) : PFloat :=
  (l.filter (fun x => match x with | .nan => false | _ => true)).foldl
    PFloat.fadd (PFloat.fin 0)

/-- Number of non-NaN entries of a `PFloat` column (`Series.count`). -/
def pfColCount (l : List PFloat) : ℕ :=
  (l.filter (fun x => match x with | .nan => false | _ => true)).length

/-- `Series.mean` of a `PFloat` column: skip-NaN sum over non-NaN count; the
empty (or all-NaN) column yields `0/0 = NaN`, as pandas returns NaN. -/
def pfMean (l : List PFloat) : PFloat :=
  PFloat.fdiv (pfColSum l) (PFloat.fin (pfColCount l))

/-- `Series.mean` of a finite rational column. -/
def qMean (l : List ℚ) : PFloat :=
  PFloat.fdiv (PFloat.fin l.sum) (PFloat.fin l.length)

/-- Result record of `EnhancedDataAnalyzer.get_performance_metrics`
(`interactive_dashboard_enhanced.py`, lines 701-721), keyed as the returned
dict. -/
structure PerfMetrics where
  totalRevenue : ℚ
  totalOrders : ℚ
  avgLeadTime : PFloat
  totalAvailability : ℚ
  avgProfitMargin : PFloat
  efficiencyScore : PFloat
  performanceScore : PFloat
  revenueTrend : String
  ordersTrend : String
  leadTimeTrend : String
deriving DecidableEq, Repr

/-- `EnhancedDataAnalyzer.get_performance_metrics` over the enriched frame.
The oracle `t` supplies the three `np.random.choice(['up','down','stable'])`
draws of lines 717-719. -/
def get_performance_metrics (df : List AdvRow) (t : String × String × String) :
    PerfMetrics where
  totalRevenue := (df.map (·.orig.revenue)).sum
  totalOrders := (df.map (·.orig.orderQuantities)).sum
  avgLeadTime := qMean (df.map (·.orig.leadTimes))
  totalAvailability := (df.map (·.orig.availability)).sum
  avgProfitMargin := qMean (df.map (·.profitMargin))
  efficiencyScore := pfMean (df.map (·.efficiencyRatio))
  performanceScore := pfMean (df.map (·.performanceScore))
  revenueTrend := t.1
  ordersTrend := t.2.1
  leadTimeTrend := t.2.2

/-- The non-random part of an enriched row: everything except the two
randomly drawn trend columns. -/
structure AdvRowCore where
  orig : Row
  profitMargin : ℚ
  totalShippingCost : ℚ
  efficiencyRatio : PFloat
  inventoryTurnover : PFloat
  performanceScore : PFloat
  riskLevel : Option String
deriving DecidableEq, Repr

/-- Project an enriched row onto its non-random columns. -/
def dropTrend (r : AdvRow) : AdvRowCore where
  orig := r.orig
  profitMargin := r.profitMargin
  totalShippingCost := r.totalShippingCost
  efficiencyRatio := r.efficiencyRatio
  inventoryTurnover := r.inventoryTurnover
  performanceScore := r.performanceScore
  riskLevel := r.riskLevel

/-- The non-random entries of the performance-metrics dict: everything
except the three randomly drawn `*_trend` entries. -/
structure PerfMetricsCore where
  totalRevenue : ℚ
  totalOrders : ℚ
  avgLeadTime : PFloat
  totalAvailability : ℚ
  avgProfitMargin : PFloat
  efficiencyScore : PFloat
  performanceScore : PFloat
deriving DecidableEq, Repr

/-- Project the metrics dict onto its non-random entries. -/
def dropTrendMetrics (m : PerfMetrics) : PerfMetricsCore where
  totalRevenue := m.totalRevenue
  totalOrders := m.totalOrders
  avgLeadTime := m.avgLeadTime
  totalAvailability := m.totalAvailability
  avgProfitMargin := m.avgProfitMargin
  efficiencyScore := m.efficiencyScore
  performanceScore := m.performanceScore

/-- The risk-level step of `apply_filters`
(`interactive_dashboard_enhanced.py`, lines 957-961):
`df[df['Risk_Level'].isin(names)]`. Pandas `isin` is false on a NaN entry
(an unbucketed row), so such a row is dropped. -/
def riskLevelFilter (names : List String) (df : List AdvRow) : List AdvRow :=
  df.filter (fun r => match r.riskLevel with
    | some s => names.contains s
    | none => false)

/-!
## Spec-side definitions (for refinement comparison only)

These two definitions follow the WORDS of claim C1 and of its amendment, not
the source; they exist to be compared against `pdCutRisk`, which is the
source's `pd.cut`.
-/

/-- Claim C1's bucketing as literally stated: left-closed right-open bins
`[0,1) → Low, [1,3) → Medium, [3,5) → High, [5,∞) → Critical`. -/
def riskLevelClaimedSpec (d : ℚ) : Option String :=
  if 0 ≤ d ∧ d < 1 then some "Low"
  else if 1 ≤ d ∧ d < 3 then some "Medium"
  else if 3 ≤ d ∧ d < 5 then some "High"
  else if 5 ≤ d then some "Critical"
  else none

/-- The amended bucketing: left-open right-closed bins
`(0,1] → Low, (1,3] → Medium, (3,5] → High, (5,∞) → Critical`, and no bucket
(NaN) for `d ≤ 0`. -/
def riskLevelAmendedSpec (d : ℚ) : Option String :=
  if 0 < d ∧ d ≤ 1 then some "Low"
  else if 1 < d ∧ d ≤ 3 then some "Medium"
  else if 3 < d ∧ d ≤ 5 then some "High"
  else if 5 < d then some "Critical"
  else none

/-!
## Concrete sample data (for witnesses and counterexamples)
-/

/-- A generic sample row with strictly positive numeric fields. -/
def sampleRow : Row where
  productType := "haircare"
  location := "Mumbai"
  supplierName := "Supplier 1"
  transportationModes := "Road"
  revenue := 8662
  manufacturingCosts := 47
  numberSold := 802
  stockLevels := 58
  leadTimes := 7
  defectRates := 2
  shippingCosts := 3
  orderQuantities := 96
  availability := 55

/-- A concrete trend oracle: every row draws `("Up", 1/2)`. -/
def randU : ℕ → String × ℚ := fun _ => ("Up", 1/2)

/-- A concrete trend oracle: every row draws `("Down", 1/2)`. -/
def randD : ℕ → String × ℚ := fun _ => ("Down", 1/2)

/-- A concrete metric-trend oracle triple. -/
def trioA : String × String × String := ("up", "up", "up")

/-- Another concrete metric-trend oracle triple. -/
def trioB : String × String × String := ("down", "down", "down")

/-- A row with zero manufacturing cost and zero stock level (and positive
revenue and units sold), exercising both division guards. -/
def rowMc0 : Row where
  productType := "skincare"
  location := "Delhi"
  supplierName := "Supplier 2"
  transportationModes := "Air"
  revenue := 100
  manufacturingCosts := 0
  numberSold := 10
  stockLevels := 0
  leadTimes := 4
  defectRates := 1/2
  shippingCosts := 2
  orderQuantities := 20
  availability := 10

/-- A row with zero revenue (so a one-row batch has `max(revenue) = 0`). -/
def rowRev0 : Row where
  productType := "cosmetics"
  location := "Chennai"
  supplierName := "Supplier 3"
  transportationModes := "Rail"
  revenue := 0
  manufacturingCosts := 5
  numberSold := 3
  stockLevels := 2
  leadTimes := 3
  defectRates := 2
  shippingCosts := 1
  orderQuantities := 4
  availability := 6

/-- A row whose defect rate is exactly 1 (a bucket boundary). -/
def rowD1 : Row where
  productType := "haircare"
  location := "Kolkata"
  supplierName := "Supplier 4"
  transportationModes := "Sea"
  revenue := 500
  manufacturingCosts := 50
  numberSold := 40
  stockLevels := 20
  leadTimes := 10
  defectRates := 1
  shippingCosts := 5
  orderQuantities := 30
  availability := 12

/-- A row whose defect rate is exactly 0. -/
def rowD0 : Row where
  productType := "skincare"
  location := "Bangalore"
  supplierName := "Supplier 5"
  transportationModes := "Road"
  revenue := 700
  manufacturingCosts := 70
  numberSold := 60
  stockLevels := 30
  leadTimes := 6
  defectRates := 0
  shippingCosts := 4
  orderQuantities := 25
  availability := 40

/-- A frame exposing only a `Manufacturing costs` column: every column of
`advAccessOrder` but that one is absent. -/
def frameNoRevenue : RawFrame := [("Manufacturing costs", [1, 2])]

/-- The four risk bucket labels, as the sidebar multiselect lists them
(`interactive_dashboard_enhanced.py`, line 912). -/
def allRiskNames : List String := ["Low", "Medium", "High", "Critical"]

/-- Uniform rescaling of the revenue column. -/
def scaleRevenue (c : ℚ) (r : Row) : Row := { r with revenue := c * r.revenue }

/-- Uniform rescaling of the lead-time column. -/
def scaleLeadTime (c : ℚ) (r : Row) : Row := { r with leadTimes := c * r.leadTimes }

/-- Uniform rescaling of the defect-rate column. -/
def scaleDefectRate (c : ℚ) (r : Row) : Row := { r with defectRates := c * r.defectRates }

/-!
## Helper lemmas
-/

theorem fadd_nan_right (x : PFloat) : PFloat.fadd x PFloat.nan = PFloat.nan := by
  cases x <;> rfl

theorem fadd_nan_left (x : PFloat) : PFloat.fadd PFloat.nan x = PFloat.nan := by
  cases x <;> rfl

theorem fmul_nan_left (x : PFloat) : PFloat.fmul PFloat.nan x = PFloat.nan := by
  cases x <;> rfl

theorem fsub_nan_right (x : PFloat) : PFloat.fsub x PFloat.nan = PFloat.nan := by
  cases x <;> rfl

theorem advRows_map_orig (mR mL mD : ℚ) (rand : ℕ → String × ℚ) :
    ∀ (i : ℕ) (rows : List Row), (advRows mR mL mD rand i rows).map (·.orig) = rows
  | _, [] => rfl
  | i, _ :: rs => by
      simp only [advRows, List.map_cons, advRows_map_orig mR mL mD rand (i + 1) rs]
      rfl

theorem advRows_length (mR mL mD : ℚ) (rand : ℕ → String × ℚ) :
    ∀ (i : ℕ) (rows : List Row), (advRows mR mL mD rand i rows).length = rows.length
  | _, [] => rfl
  | i, _ :: rs => by
      simp only [advRows, List.length_cons, advRows_length mR mL mD rand (i + 1) rs]

theorem advRows_getq_orig (mR mL mD : ℚ) (rand : ℕ → String × ℚ) :
    ∀ (i k : ℕ) (rows : List Row),
      ((advRows mR mL mD rand i rows)[k]?).map (·.orig) = rows[k]?
  | _, _, [] => by simp [advRows]
  | _, 0, _ :: _ => by simp [advRows, mkAdvRow]
  | i, k + 1, _ :: rs => by
      simpa [advRows] using advRows_getq_orig mR mL mD rand (i + 1) k rs

theorem advRows_getq_risk (mR mL mD : ℚ) (rand : ℕ → String × ℚ) :
    ∀ (i k : ℕ) (rows : List Row),
      ((advRows mR mL mD rand i rows)[k]?).map (·.riskLevel) =
        (rows[k]?).map (fun r => pdCutRisk r.defectRates)
  | _, _, [] => by simp [advRows]
  | _, 0, _ :: _ => by simp [advRows, mkAdvRow]
  | i, k + 1, _ :: rs => by
      simpa [advRows] using advRows_getq_risk mR mL mD rand (i + 1) k rs

theorem advRows_map_perf (mR mL mD : ℚ) (rand : ℕ → String × ℚ) :
    ∀ (i : ℕ) (rows : List Row),
      (advRows mR mL mD rand i rows).map (·.performanceScore) =
        rows.map (perfScore mR mL mD)
  | _, [] => rfl
  | i, _ :: rs => by
      simp only [advRows, List.map_cons, advRows_map_perf mR mL mD rand (i + 1) rs]
      rfl

theorem advRows_map_risk (mR mL mD : ℚ) (rand : ℕ → String × ℚ) :
    ∀ (i : ℕ) (rows : List Row),
      (advRows mR mL mD rand i rows).map (·.riskLevel) =
        rows.map (fun r => pdCutRisk r.defectRates)
  | _, [] => rfl
  | i, _ :: rs => by
      simp only [advRows, List.map_cons, advRows_map_risk mR mL mD rand (i + 1) rs]
      rfl

theorem advRows_dropTrend (mR mL mD : ℚ) (r₁ r₂ : ℕ → String × ℚ) :
    ∀ (i j : ℕ) (rows : List Row),
      (advRows mR mL mD r₁ i rows).map dropTrend =
        (advRows mR mL mD r₂ j rows).map dropTrend
  | _, _, [] => rfl
  | i, j, _ :: rs => by
      simp only [advRows, List.map_cons, advRows_dropTrend mR mL mD r₁ r₂ (i + 1) (j + 1) rs]
      rfl

theorem mem_advRows (mR mL mD : ℚ) (rand : ℕ → String × ℚ) :
    ∀ (i : ℕ) (rows : List Row) (a : AdvRow), a ∈ advRows mR mL mD rand i rows →
      ∃ j r, r ∈ rows ∧ a = mkAdvRow mR mL mD (rand j) r
  | _, [], _, h => by simp [advRows] at h
  | i, r :: rs, a, h => by
      rcases List.mem_cons.1 h with h0 | h1
      · exact ⟨i, r, List.mem_cons_self r rs, h0⟩
      · obtain ⟨j, r0, hmem, heq⟩ := mem_advRows mR mL mD rand (i + 1) rs a h1
        exact ⟨j, r0, List.mem_cons_of_mem r hmem, heq⟩

theorem le_foldl_max_self : ∀ (xs : List ℚ) (a : ℚ), a ≤ xs.foldl max a
  | [], _ => le_refl _
  | x :: xs, a => le_trans (le_max_left a x) (le_foldl_max_self xs (max a x))

theorem le_foldl_max_of_mem : ∀ (xs : List ℚ) (a y : ℚ), y ∈ xs → y ≤ xs.foldl max a
  | [], _, _, h => absurd h (List.not_mem_nil _)
  | x :: xs, a, y, h => by
      rcases List.mem_cons.1 h with rfl | h1
      · exact le_trans (le_max_right a y) (le_foldl_max_self xs (max a y))
      · exact le_foldl_max_of_mem xs (max a x) y h1

theorem le_colMax (l : List ℚ) (y : ℚ) (h : y ∈ l) : y ≤ colMax l := by
  cases l with
  | nil => exact absurd h (List.not_mem_nil _)
  | cons x xs =>
      rcases List.mem_cons.1 h with rfl | h1
      · exact le_foldl_max_self xs y
      · exact le_foldl_max_of_mem xs x y h1

theorem foldl_max_scale (c : ℚ) (hc : 0 ≤ c) :
    ∀ (xs : List ℚ) (a : ℚ), (xs.map (fun x => c * x)).foldl max (c * a) = c * xs.foldl max a
  | [], _ => rfl
  | x :: xs, a => by
      simp only [List.map_cons, List.foldl_cons, ← mul_max_of_nonneg _ _ hc,
        foldl_max_scale c hc xs (max a x)]

theorem colMax_scale (c : ℚ) (hc : 0 ≤ c) (l : List ℚ) :
    colMax (l.map (fun x => c * x)) = c * colMax l := by
  cases l with
  | nil => simp [colMax]
  | cons x xs => simpa [colMax] using foldl_max_scale c hc xs x

theorem fdiv_scale (c a b : ℚ) (hc : 0 < c) :
    PFloat.fdiv (PFloat.fin (c * a)) (PFloat.fin (c * b)) =
      PFloat.fdiv (PFloat.fin a) (PFloat.fin b) := by
  by_cases hb : b = 0
  · subst hb
    rcases lt_trichotomy a 0 with ha | ha | ha
    · have hca : c * a < 0 := mul_neg_of_pos_of_neg hc ha
      simp [PFloat.fdiv, mul_zero, hca.ne, ha.ne, not_lt.2 hca.le, not_lt.2 ha.le, hca, ha]
    · subst ha
      simp [PFloat.fdiv]
    · have hca : 0 < c * a := mul_pos hc ha
      simp [PFloat.fdiv, mul_zero, hca, ha]
  · have hcb : c * b ≠ 0 := mul_ne_zero hc.ne' hb
    simp [PFloat.fdiv, hb, hcb, mul_div_mul_left a b hc.ne']

theorem perfScore_scaleRev (c mR mL mD : ℚ) (hc : 0 < c) (r : Row) :
    perfScore (c * mR) mL mD (scaleRevenue c r) = perfScore mR mL mD r := by
  show PFloat.fmul
      (PFloat.fadd (PFloat.fadd (revTerm (c * mR) (c * r.revenue)) (ltTerm mL r.leadTimes))
        (drTerm mD r.defectRates)) (PFloat.fin 100) = _
  unfold perfScore revTerm
  rw [fdiv_scale c r.revenue mR hc]

theorem perfScore_scaleLt (c mR mL mD : ℚ) (hc : 0 < c) (r : Row) :
    perfScore mR (c * mL) mD (scaleLeadTime c r) = perfScore mR mL mD r := by
  show PFloat.fmul
      (PFloat.fadd (PFloat.fadd (revTerm mR r.revenue) (ltTerm (c * mL) (c * r.leadTimes)))
        (drTerm mD r.defectRates)) (PFloat.fin 100) = _
  unfold perfScore ltTerm
  rw [fdiv_scale c r.leadTimes mL hc]

theorem perfScore_scaleDr (c mR mL mD : ℚ) (hc : 0 < c) (r : Row) :
    perfScore mR mL (c * mD) (scaleDefectRate c r) = perfScore mR mL mD r := by
  show PFloat.fmul
      (PFloat.fadd (PFloat.fadd (revTerm mR r.revenue) (ltTerm mL r.leadTimes))
        (drTerm (c * mD) (c * r.defectRates))) (PFloat.fin 100) = _
  unfold perfScore drTerm
  rw [fdiv_scale c r.defectRates mD hc]

theorem map_revenue_scaleRev (c : ℚ) (df : List Row) :
    (df.map (scaleRevenue c)).map (·.revenue) = (df.map (·.revenue)).map (fun x => c * x) := by
  rw [List.map_map, List.map_map]; rfl

theorem map_leadTimes_scaleLt (c : ℚ) (df : List Row) :
    (df.map (scaleLeadTime c)).map (·.leadTimes) = (df.map (·.leadTimes)).map (fun x => c * x) := by
  rw [List.map_map, List.map_map]; rfl

theorem map_defectRates_scaleDr (c : ℚ) (df : List Row) :
    (df.map (scaleDefectRate c)).map (·.defectRates) =
      (df.map (·.defectRates)).map (fun x => c * x) := by
  rw [List.map_map, List.map_map]; rfl

theorem map_col_scaleRev_lt (c : ℚ) (df : List Row) :
    (df.map (scaleRevenue c)).map (·.leadTimes) = df.map (·.leadTimes) := by
  rw [List.map_map]; rfl

theorem map_col_scaleRev_dr (c : ℚ) (df : List Row) :
    (df.map (scaleRevenue c)).map (·.defectRates) = df.map (·.defectRates) := by
  rw [List.map_map]; rfl

theorem map_col_scaleLt_rev (c : ℚ) (df : List Row) :
    (df.map (scaleLeadTime c)).map (·.revenue) = df.map (·.revenue) := by
  rw [List.map_map]; rfl

theorem map_col_scaleLt_dr (c : ℚ) (df : List Row) :
    (df.map (scaleLeadTime c)).map (·.defectRates) = df.map (·.defectRates) := by
  rw [List.map_map]; rfl

theorem map_col_scaleDr_rev (c : ℚ) (df : List Row) :
    (df.map (scaleDefectRate c)).map (·.revenue) = df.map (·.revenue) := by
  rw [List.map_map]; rfl

theorem map_col_scaleDr_lt (c : ℚ) (df : List Row) :
    (df.map (scaleDefectRate c)).map (·.leadTimes) = df.map (·.leadTimes) := by
  rw [List.map_map]; rfl

/-- C7: uniformly rescaling the revenue (resp. lead-time, defect-rate)
column of every row by a positive constant leaves every row's
`Performance_Score` unchanged, because each weighted term is taken relative
to that column's own batch maximum. -/
theorem performance_score_scale_invariant (df : List Row) (rand : ℕ → String × ℚ)
    (c : ℚ) (hc : 0 < c) :
    (calculate_advanced_metrics (df.map (scaleRevenue c)) rand).map (·.performanceScore) =
      (calculate_advanced_metrics df rand).map (·.performanceScore) ∧
    (calculate_advanced_metrics (df.map (scaleLeadTime c)) rand).map (·.performanceScore) =
      (calculate_advanced_metrics df rand).map (·.performanceScore) ∧
    (calculate_advanced_metrics (df.map (scaleDefectRate c)) rand).map (·.performanceScore) =
      (calculate_advanced_metrics df rand).map (·.performanceScore) := by
  unfold calculate_advanced_metrics
  refine ⟨?_, ?_, ?_⟩
  · rw [advRows_map_perf, advRows_map_perf, map_revenue_scaleRev, colMax_scale c hc.le,
      map_col_scaleRev_lt, map_col_scaleRev_dr, List.map_map]
    exact List.map_congr_left (fun r _ => perfScore_scaleRev c _ _ _ hc r)
  · rw [advRows_map_perf, advRows_map_perf, map_leadTimes_scaleLt, colMax_scale c hc.le,
      map_col_scaleLt_rev, map_col_scaleLt_dr, List.map_map]
    exact List.map_congr_left (fun r _ => perfScore_scaleLt c _ _ _ hc r)
  · rw [advRows_map_perf, advRows_map_perf, map_defectRates_scaleDr, colMax_scale c hc.le,
      map_col_scaleDr_rev, map_col_scaleDr_lt, List.map_map]
    exact List.map_congr_left (fun r _ => perfScore_scaleDr c _ _ _ hc r)

/-- Witness for `performance_score_scale_invariant` at `c = 2` on a concrete
two-row batch. -/
theorem performance_score_scale_invariant_witness :
    (0 : ℚ) < 2 ∧
    (calculate_advanced_metrics ([sampleRow, rowD1].map (scaleRevenue 2)) randU).map
        (·.performanceScore) =
      (calculate_advanced_metrics [sampleRow, rowD1] randU).map (·.performanceScore) :=
  ⟨by norm_num,
   (performance_score_scale_invariant [sampleRow, rowD1] randU 2 (by norm_num)).1⟩

/-- C8: both enrichment functions return exactly one output row per input
row, and output row `k` is derived from input row `k` (order preserved). -/
theorem enrichment_preserves_length_and_order (df : List Row) (rand : ℕ → String × ℚ)
    (k : ℕ) :
    (calculate_advanced_metrics df rand).length = df.length ∧
    (calculate_derived_metrics df).length = df.length ∧
    ((calculate_advanced_metrics df rand)[k]?).map (·.orig) = df[k]? ∧
    ((calculate_derived_metrics df)[k]?).map (·.orig) = df[k]? := by
  refine ⟨advRows_length _ _ _ _ 0 df, ?_, advRows_getq_orig _ _ _ _ 0 k df, ?_⟩
  · simp [calculate_derived_metrics]
  · simp only [calculate_derived_metrics, List.getElem?_map, Option.map_map]
    cases df[k]? <;> rfl

/-- C9: enrichment has no side effects on its input (both functions are pure
maps in this model, mirroring `df.copy()` in the source), and every original
field of every row reappears unchanged in the corresponding output row. -/
theorem enrichment_preserves_original_fields (df : List Row) (rand : ℕ → String × ℚ) :
    (calculate_advanced_metrics df rand).map (·.orig) = df ∧
    (calculate_derived_metrics df).map (·.orig) = df := by
  refine ⟨advRows_map_orig _ _ _ _ 0 df, ?_⟩
  simp only [calculate_derived_metrics, List.map_map]
  exact List.map_id df

/-- C1 counterexample: a defect rate of exactly 1 is bucketed `Low` by the
code (`pd.cut` right-closed bins), while the claimed left-closed bucketing
would make it `Medium`. -/
theorem risk_boundary_one_is_low_not_medium :
    (calculate_advanced_metrics [rowD1] randU).map (·.riskLevel) = [some "Low"] ∧
    riskLevelClaimedSpec rowD1.defectRates = some "Medium" ∧
    (some "Low" : Option String) ≠ some "Medium" := by
  refine ⟨?_, by decide, by decide⟩
  decide

/-- C1 amended: `Risk_Level` is assigned by LEFT-OPEN RIGHT-CLOSED defect
rate buckets `(0,1] → Low`, `(1,3] → Medium`, `(3,5] → High`,
`(5,∞) → Critical`; a defect rate of exactly 1 is Low, exactly 3 is Medium,
exactly 5 is High, and a defect rate `≤ 0` (in particular exactly 0) gets no
bucket at all. -/
theorem risk_level_buckets_right_closed (df : List Row) (rand : ℕ → String × ℚ) :
    (calculate_advanced_metrics df rand).map (·.riskLevel) =
      df.map (fun r => riskLevelAmendedSpec r.defectRates) := by
  unfold calculate_advanced_metrics
  rw [advRows_map_risk]
  rfl

/-- C3 counterexample: the same one-row batch enriched twice (two draws of
the random trend oracle) yields different outputs, and the metrics dict of
`get_performance_metrics` likewise differs across two random draws: the
pipeline is not deterministic. -/
theorem pipeline_output_depends_on_random_trend :
    calculate_advanced_metrics [sampleRow] randU ≠ calculate_advanced_metrics [sampleRow] randD ∧
    get_performance_metrics (calculate_advanced_metrics [sampleRow] randU) trioA ≠
      get_performance_metrics (calculate_advanced_metrics [sampleRow] randU) trioB := by
  constructor
  · intro h
    exact absurd (congrArg (List.map (·.trendDirection)) h) (by decide)
  · intro h
    exact absurd (congrArg PerfMetrics.revenueTrend h) (by decide)

/-- C3 amended: the pipeline is deterministic in everything EXCEPT the
randomly drawn fields: erasing the `Trend_Direction`/`Trend_Strength`
columns, the enriched output is a function of the input batch alone, and
erasing the three `*_trend` entries, the performance-metrics dict is a
function of the enriched batch alone. -/
theorem pipeline_deterministic_outside_trend_fields (df : List Row)
    (r₁ r₂ : ℕ → String × ℚ) (edf : List AdvRow) (t₁ t₂ : String × String × String) :
    (calculate_advanced_metrics df r₁).map dropTrend =
      (calculate_advanced_metrics df r₂).map dropTrend ∧
    dropTrendMetrics (get_performance_metrics edf t₁) =
      dropTrendMetrics (get_performance_metrics edf t₂) := by
  exact ⟨advRows_dropTrend _ _ _ r₁ r₂ 0 0 df, rfl⟩

/-- C2 counterexample: `calculate_derived_metrics` (the enrichment step of
`enhanced_supply_chain_dashboard.py`) divides without a guard, so a row with
zero manufacturing cost and positive revenue gets `efficiency_ratio = +inf`
(and zero stock with positive units sold gets `inventory_turnover = +inf`),
not 0. -/
theorem derived_metrics_zero_cost_gives_inf :
    (calculate_derived_metrics [rowMc0]).map (·.efficiencyRatio) = [PFloat.posInf] ∧
    (calculate_derived_metrics [rowMc0]).map (·.inventoryTurnover) = [PFloat.posInf] ∧
    rowMc0.manufacturingCosts = 0 ∧ rowMc0.stockLevels = 0 ∧
    PFloat.posInf ≠ PFloat.fin 0 := by
  refine ⟨by decide, by decide, by decide, by decide, by decide⟩

/-- C2 amended: in `calculate_advanced_metrics` (the enrichment step of
`interactive_dashboard_enhanced.py`) the divide-by-zero policy does hold
per-row: a zero denominator gives a ratio of exactly 0, never an error,
NaN or infinity; `calculate_derived_metrics` has no such guard. -/
theorem advanced_metrics_zero_denominator_ratio_zero (df : List Row)
    (rand : ℕ → String × ℚ) (a : AdvRow) (h : a ∈ calculate_advanced_metrics df rand) :
    (a.orig.manufacturingCosts = 0 → a.efficiencyRatio = PFloat.fin 0) ∧
    (a.orig.stockLevels = 0 → a.inventoryTurnover = PFloat.fin 0) := by
  obtain ⟨j, r, hmem, rfl⟩ := mem_advRows _ _ _ rand 0 df a h
  constructor
  · intro h0
    simp only [mkAdvRow] at h0 ⊢
    rw [h0]
    simp
  · intro h0
    simp only [mkAdvRow] at h0 ⊢
    rw [h0]
    simp

/-- Witness for `advanced_metrics_zero_denominator_ratio_zero` on a one-row
batch whose manufacturing cost and stock level are both 0. -/
theorem advanced_metrics_zero_denominator_ratio_zero_witness :
    mkAdvRow 100 4 (1/2) (randU 0) rowMc0 ∈ calculate_advanced_metrics [rowMc0] randU ∧
    rowMc0.manufacturingCosts = 0 ∧ rowMc0.stockLevels = 0 ∧
    (mkAdvRow 100 4 (1/2) (randU 0) rowMc0).efficiencyRatio = PFloat.fin 0 ∧
    (mkAdvRow 100 4 (1/2) (randU 0) rowMc0).inventoryTurnover = PFloat.fin 0 :=
  ⟨List.mem_cons_self _ _, rfl, rfl,
   (advanced_metrics_zero_denominator_ratio_zero [rowMc0] randU _
     (List.mem_cons_self _ _)).1 rfl,
   (advanced_metrics_zero_denominator_ratio_zero [rowMc0] randU _
     (List.mem_cons_self _ _)).2 rfl⟩

/-- C4 counterexample: on a batch whose revenues are all 0 (`max(revenue) =
0`), the revenue term is `0/0 = NaN`, and `Performance_Score` is NaN for
every row — the code has no guard turning the term into 0. -/
theorem performance_term_nan_at_zero_max :
    revTerm (colMax ([rowRev0].map (·.revenue))) rowRev0.revenue = PFloat.nan ∧
    (calculate_advanced_metrics [rowRev0] randU).map (·.performanceScore) = [PFloat.nan] ∧
    PFloat.nan ≠ PFloat.fin 0 := by
  refine ⟨by decide, by decide, by decide⟩

/-- C4 amended: if one of the three column maxima is 0 then (the columns
being non-negative, so every value of that column is 0) the corresponding
weighted term is `0/0 = NaN` and `Performance_Score` is NaN — an undefined
value, not 0 — for every row of the batch. -/
theorem performance_score_nan_when_column_max_zero (df : List Row)
    (rand : ℕ → String × ℚ) (a : AdvRow) (h : a ∈ calculate_advanced_metrics df rand) :
    ((∀ r ∈ df, 0 ≤ r.revenue) → colMax (df.map (·.revenue)) = 0 →
      a.performanceScore = PFloat.nan) ∧
    ((∀ r ∈ df, 0 ≤ r.leadTimes) → colMax (df.map (·.leadTimes)) = 0 →
      a.performanceScore = PFloat.nan) ∧
    ((∀ r ∈ df, 0 ≤ r.defectRates) → colMax (df.map (·.defectRates)) = 0 →
      a.performanceScore = PFloat.nan) := by
  obtain ⟨j, r, hmem, rfl⟩ := mem_advRows _ _ _ rand 0 df a h
  have hdiv : PFloat.fdiv (PFloat.fin 0) (PFloat.fin 0) = PFloat.nan := by
    simp [PFloat.fdiv]
  refine ⟨fun hnn hmax => ?_, fun hnn hmax => ?_, fun hnn hmax => ?_⟩
  · have hr : r.revenue = 0 :=
      le_antisymm (hmax ▸ le_colMax _ _ (List.mem_map_of_mem _ hmem)) (hnn r hmem)
    show perfScore _ _ _ r = PFloat.nan
    unfold perfScore revTerm
    rw [hr, hmax, hdiv, fmul_nan_left, fadd_nan_left, fadd_nan_left, fmul_nan_left]
  · have hr : r.leadTimes = 0 :=
      le_antisymm (hmax ▸ le_colMax _ _ (List.mem_map_of_mem _ hmem)) (hnn r hmem)
    show perfScore _ _ _ r = PFloat.nan
    unfold perfScore ltTerm
    rw [hr, hmax, hdiv, fsub_nan_right, fmul_nan_left, fadd_nan_right, fadd_nan_left,
      fmul_nan_left]
  · have hr : r.defectRates = 0 :=
      le_antisymm (hmax ▸ le_colMax _ _ (List.mem_map_of_mem _ hmem)) (hnn r hmem)
    show perfScore _ _ _ r = PFloat.nan
    unfold perfScore drTerm
    rw [hr, hmax, hdiv, fsub_nan_right, fmul_nan_left, fadd_nan_right, fmul_nan_left]

/-- Witness for `performance_score_nan_when_column_max_zero` on a one-row
batch with zero revenue. -/
theorem performance_score_nan_when_column_max_zero_witness :
    mkAdvRow 0 3 2 (randU 0) rowRev0 ∈ calculate_advanced_metrics [rowRev0] randU ∧
    (∀ r ∈ [rowRev0], 0 ≤ r.revenue) ∧
    colMax ([rowRev0].map (·.revenue)) = 0 ∧
    (mkAdvRow 0 3 2 (randU 0) rowRev0).performanceScore = PFloat.nan :=
  ⟨List.mem_cons_self _ _, by decide, by decide,
   (performance_score_nan_when_column_max_zero [rowRev0] randU _
     (List.mem_cons_self _ _)).1 (by decide) (by decide)⟩

/-- C10: a row whose defect rate is exactly 0 falls outside every `pd.cut`
bin, so its `Risk_Level` is null (no bucket, in particular not `Low`), and
the risk-level membership filter of `apply_filters` — even when all four
bucket names are selected — silently drops every unbucketed row. -/
theorem zero_defect_rate_unbucketed_and_filtered_out (df : List Row)
    (rand : ℕ → String × ℚ) (k : ℕ) (row : Row)
    (h1 : df[k]? = some row) (h2 : row.defectRates = 0) :
    ((calculate_advanced_metrics df rand)[k]?).map (·.riskLevel) = some none ∧
    ∀ a ∈ riskLevelFilter allRiskNames (calculate_advanced_metrics df rand),
      a.riskLevel ≠ none := by
  constructor
  · have h3 := advRows_getq_risk (colMax (df.map (·.revenue))) (colMax (df.map (·.leadTimes)))
      (colMax (df.map (·.defectRates))) rand 0 k df
    show ((advRows _ _ _ rand 0 df)[k]?).map (·.riskLevel) = some none
    rw [h3, h1]
    simp only [Option.map]
    rw [h2]
    norm_num [pdCutRisk]
  · intro a ha hnone
    have := (List.mem_filter.1 ha).2
    rw [hnone] at this
    exact Bool.noConfusion this

/-- Witness for `zero_defect_rate_unbucketed_and_filtered_out` on a one-row
batch whose defect rate is 0. -/
theorem zero_defect_rate_unbucketed_and_filtered_out_witness :
    ([rowD0][0]? = some rowD0) ∧ rowD0.defectRates = 0 ∧
    ((calculate_advanced_metrics [rowD0] randU)[0]?).map (·.riskLevel) = some none :=
  ⟨rfl, rfl,
   (zero_defect_rate_unbucketed_and_filtered_out [rowD0] randU 0 rowD0 rfl rfl).1⟩

/-- C5 counterexample: the `transportation_analysis` aggregation of
`get_advanced_analytics` is one of the source's aggregations, and it orders
its output ASCENDING (`ORDER BY avg_shipping_cost ASC`), not descending;
moreover the `location_efficiency` aggregation orders by its third declared
reduction (`avg_efficiency`), not its first (`total_revenue`). -/
theorem transportation_query_orders_ascending :
    transportationAnalysisQuery ∈ sourceQueries ∧
    transportationAnalysisQuery.descending = false ∧
    locationEfficiencyQuery ∈ sourceQueries ∧
    locationEfficiencyQuery.orderBy = "avg_efficiency" ∧
    firstReductionAlias locationEfficiencyQuery = some "total_revenue" := by
  refine ⟨by decide, rfl, by decide, rfl, rfl⟩

/-- C5 amended: of the seven `GROUP BY` aggregations declared in the two
source files, five (`revenue_by_product_type`, `location_performance`,
`supplier_analysis`, `product_performance`, `supplier_risk`) order by their
first declared reduction descending; `location_efficiency` orders by its
third declared reduction (`avg_efficiency`) descending; and
`transportation_analysis` orders by its first declared reduction ASCENDING.
Every ordering is an explicit `ORDER BY` clause — there is no default. -/
theorem declared_query_orderings :
    sourceQueries =
      [revenueByProductTypeQuery, locationPerformanceQuery, supplierAnalysisQuery,
       productPerformanceQuery, locationEfficiencyQuery, supplierRiskQuery,
       transportationAnalysisQuery] ∧
    firstReductionAlias revenueByProductTypeQuery = some revenueByProductTypeQuery.orderBy ∧
    revenueByProductTypeQuery.descending = true ∧
    firstReductionAlias locationPerformanceQuery = some locationPerformanceQuery.orderBy ∧
    locationPerformanceQuery.descending = true ∧
    firstReductionAlias supplierAnalysisQuery = some supplierAnalysisQuery.orderBy ∧
    supplierAnalysisQuery.descending = true ∧
    firstReductionAlias productPerformanceQuery = some productPerformanceQuery.orderBy ∧
    productPerformanceQuery.descending = true ∧
    firstReductionAlias supplierRiskQuery = some supplierRiskQuery.orderBy ∧
    supplierRiskQuery.descending = true ∧
    locationEfficiencyQuery.orderBy = "avg_efficiency" ∧
    (locationEfficiencyQuery.reductions[2]?).map (·.outName) = some "avg_efficiency" ∧
    locationEfficiencyQuery.descending = true ∧
    firstReductionAlias transportationAnalysisQuery = some transportationAnalysisQuery.orderBy ∧
    transportationAnalysisQuery.descending = false := by
  refine ⟨rfl, rfl, rfl, rfl, rfl, rfl, rfl, rfl, rfl, rfl, rfl, rfl, rfl, rfl, rfl, rfl⟩

/-- C6 counterexample: on a frame lacking the `Revenue generated` column,
enrichment fails with Python's `KeyError` naming that column (the first
missing column the pandas expressions subscript) — the repository defines no
`SchemaError` type, and `PyErr` (the errors the code can actually raise on a
malformed frame) has no such constructor. -/
theorem missing_column_raises_key_error :
    calculate_advanced_metrics_df frameNoRevenue randU =
      .error (.keyError "Revenue generated") ∧
    calculate_derived_metrics_df frameNoRevenue =
      .error (.keyError "Revenue generated") := by
  refine ⟨rfl, rfl⟩

/-- C6 amended: when a required column is absent from the batch, each
enrichment function fails fast with an (untyped) `KeyError` naming the first
missing column in its access order — not with a typed `SchemaError`, which
does not exist in the repository — and performs no partial computation. -/
theorem enrichment_fails_with_first_missing_key (f : RawFrame)
    (rand : ℕ → String × ℚ) (n : String) :
    (advAccessOrder.find? (fun m => (findCol f m).isNone) = some n →
      calculate_advanced_metrics_df f rand = .error (.keyError n)) ∧
    (derivedAccessOrder.find? (fun m => (findCol f m).isNone) = some n →
      calculate_derived_metrics_df f = .error (.keyError n)) := by
  constructor
  · intro h
    unfold calculate_advanced_metrics_df
    rw [h]
  · intro h
    unfold calculate_derived_metrics_df
    rw [h]

/-- Witness for `enrichment_fails_with_first_missing_key` on a frame that
has only a `Manufacturing costs` column. -/
theorem enrichment_fails_with_first_missing_key_witness :
    (advAccessOrder.find? (fun m => (findCol frameNoRevenue m).isNone) =
      some "Revenue generated") ∧
    calculate_advanced_metrics_df frameNoRevenue randU =
      .error (.keyError "Revenue generated") :=
  ⟨by decide,
   (enrichment_fails_with_first_missing_key frameNoRevenue randU "Revenue generated").1
     (by decide)⟩
